import Mathlib

/-!
# Verification of `sktime/split/temporal_train_test_split.py`

A shallow embedding of the temporal train-test splitter from
`src/sktime/split/temporal_train_test_split.py`, together with theorems
settling the specification claims about it.

The series to split is modelled as the list of its integer positions
(`List.range N` for a series of length `N`); the two members of a split are
the lists of positions they select, in original order.  Python `int` size
arguments are modelled as `Nat`, Python `float` size arguments as `ℚ`.
-/

/-- A Python size argument value: a Python `int` (non-negative, per the
documented domain) or a Python `float`, modelled as a rational number. -/
inductive PyNum where
  | int : Nat → PyNum
  | float : ℚ → PyNum
  deriving DecidableEq

/-- `isinstance(x, int)` for an optional size argument. -/
def isPyInt : Option PyNum → Bool
  | some (PyNum.int _) => true
  | _ => false

/-- The anchor string `"start"`. -/
def anchorStart : String := "start"

/-- The anchor string `"end"`. -/
def anchorEnd : String := "end"

/-- `math.ceil` of a rational, as a natural number (all values it is applied
to are non-negative). -/
def pyCeil (q : ℚ) : ℕ := Nat.ceil q

/-- Convert a size argument into an absolute sample count relative to a
series of length `n`: a float is a proportion of `n`, rounded up to the next
integer count of samples (as documented for `test_size`/`train_size` in the
class docstring); an int passes through unchanged.  The `none` case is never
reached from `TemporalTrainTestSplitter_splitCore` below. -/
def sizeToCount : Option PyNum → ℕ → ℕ
  | some (PyNum.int k), _ => k
  | some (PyNum.float q), n => pyCeil (q * n)
  | none, _ => 0

/-- Modelled from the spec: `ExpandingGreedySplitter` is imported inside
`TemporalTrainTestSplitter._split` from `sktime.forecasting.model_selection`
and its source is not part of this excerpt.  With `folds=1` it cuts a single
greedy train/test pair from the series: the test set is the final
`test_size` positions and the train set is everything before it ("test set is
cut first" from the tail).  With `reverse=True` the two ends swap roles: the
test set is the first `test_size` positions and the train set is everything
after it.  Returns the `(train, test)` pair yielded by `splitter.split(y)`;
slicing clamps to the available length, and float sizes are proportions of
the length of the series the splitter is applied to. -/
def ExpandingGreedySplitter_split (size : Option PyNum) (reverse : Bool)
    (y : List ℕ) : List ℕ × List ℕ :=
  let k := sizeToCount size y.length
  if reverse then (y.drop k, y.take k)
  else (y.take (y.length - k), y.drop (y.length - k))

/-- Lines 162-168 of `TemporalTrainTestSplitter._split`: default the test
size when both sizes are absent, then infer the anchor.  Returns the
(unchanged) train size, the possibly defaulted test size, and the possibly
overridden anchor, mirroring the local variables of the method. -/
def normalizeSizes (train_size test_size : Option PyNum) (anchor : String) :
    Option PyNum × Option PyNum × String :=
  let test_size := if test_size.isNone && train_size.isNone
    then some (PyNum.float (1/4)) else test_size
  let anchor := if train_size.isNone then anchorEnd else anchor
  let anchor := if test_size.isNone then anchorStart else anchor
  (train_size, test_size, anchor)

/-- Lines 155-183 of `TemporalTrainTestSplitter._split`: the single
`(y_train_ix, y_test_ix)` pair the generator yields, for a series of
positions `y`.  The branch on the normalized anchor, the guard
`if train_size is not None`, the sizes each inner `ExpandingGreedySplitter`
is constructed with, and which component of each inner split is kept all
mirror the source. -/
def TemporalTrainTestSplitter_splitCore (train_size test_size : Option PyNum)
    (anchor : String) (y : List ℕ) : List ℕ × List ℕ :=
  let norm := normalizeSizes train_size test_size anchor
  let test_size2 := norm.2.1
  let anchor2 := norm.2.2
  if anchor2 == anchorEnd then
    let p := ExpandingGreedySplitter_split test_size2 false y
    match train_size with
    | none => p
    | some t =>
      let q := ExpandingGreedySplitter_split (some t) false p.1
      (q.2, p.2)
  else
    let p := ExpandingGreedySplitter_split train_size true y
    match train_size with
    | none => (p.2, p.1)
    | some t =>
      let q := ExpandingGreedySplitter_split (some t) true p.1
      (p.2, q.1)

/-- `TemporalTrainTestSplitter._split` as the list of pairs the generator
yields: the body contains exactly one unconditional `yield`. -/
def TemporalTrainTestSplitter_split (train_size test_size : Option PyNum)
    (anchor : String) (y : List ℕ) : List (List ℕ × List ℕ) :=
  [TemporalTrainTestSplitter_splitCore train_size test_size anchor y]

/-- `TemporalTrainTestSplitter.get_n_splits`: returns the constant 1 for any
(optional) input series. -/
def TemporalTrainTestSplitter_get_n_splits (_y : Option (List ℕ)) : ℕ := 1

/-- Lines 142-153: the value of the `split_hierarchical` tag after
`TemporalTrainTestSplitter.__init__` runs.  The class-level tag is `True`;
the constructor lowers it to `False` when
`not isinstance(test_size, int) or not (train_size is None or
isinstance(train_size, int))`. -/
def TemporalTrainTestSplitter_tag_split_hierarchical
    (train_size test_size : Option PyNum) : Bool :=
  let train_size_none_flt := train_size.isNone || isPyInt train_size
  if !(isPyInt test_size) || !train_size_none_flt then false else true

/-- The parameter list of `TemporalTrainTestSplitter.__init__` from the
source signature `def __init__(self, train_size, test_size, anchor)`: each
parameter name paired with whether it carries a default value. -/
def TemporalTrainTestSplitter_initSignature : List (String × Bool) :=
  [("train_size", false), ("test_size", false), ("anchor", false)]

/-- Python keyword-call semantics for `TemporalTrainTestSplitter.__init__`:
the call succeeds exactly when every parameter that has no default value is
supplied as a keyword; otherwise Python raises `TypeError`. -/
def TemporalTrainTestSplitter_initCallOk (kwargs : List String) : Bool :=
  TemporalTrainTestSplitter_initSignature.all
    (fun p => p.2 || kwargs.contains p.1)

/-- The keyword arguments passed at lines 88-90:
`TemporalTrainTestSplitter(test_size=test_size, train_size=train_size)`. -/
def ttsInitKwargs : List String := ["test_size", "train_size"]

/-- Python errors the entry point can raise. -/
inductive PyErr where
  | valueError
  | typeError
  deriving DecidableEq

/-- The shape of a successful return of `temporal_train_test_split`. -/
inductive TTSReturn where
  | delegated
  | twoTuple
  | fourTuple
  deriving DecidableEq

/-- Lines 80-99, `temporal_train_test_split`: if `fh` is given together with
a non-`None` `test_size` or `train_size`, raise `ValueError` before any other
work; if `fh` is given alone, delegate to the external `_split_by_fh`
(represented by the `delegated` outcome).  Otherwise construct
`TemporalTrainTestSplitter(test_size=..., train_size=...)` - which, per the
source signature, never supplies `anchor` and so raises `TypeError` - and, on
a successful construction, return the four-tuple
`(y_train, y_test, X_train, X_test)` when `X` is supplied and the two-tuple
`(y_train, y_test)` when it is not. -/
def temporal_train_test_split (fh : Option ℕ)
    (test_size train_size : Option PyNum) (X : Bool) :
    Except PyErr TTSReturn :=
  match fh with
  | some _ =>
    if test_size.isSome || train_size.isSome then Except.error PyErr.valueError
    else Except.ok TTSReturn.delegated
  | none =>
    if TemporalTrainTestSplitter_initCallOk ttsInitKwargs then
      if X then Except.ok TTSReturn.fourTuple else Except.ok TTSReturn.twoTuple
    else Except.error PyErr.typeError

/-- Claim C2 (evaluation at the failing input): the keyword call made by
`temporal_train_test_split` at lines 88-90 supplies only `test_size` and
`train_size`; since `anchor` (like the other two parameters) has no default
value in the source signature, the construction fails with `TypeError`
instead of defaulting `anchor` to `"start"`. -/
theorem initCall_without_anchor_fails :
    TemporalTrainTestSplitter_initCallOk ttsInitKwargs = false := by decide

/-- Claim C8 (evaluation at the failing input): a call with `X` supplied and
`test_size=2` raises `TypeError` (the constructor call at lines 88-90 cannot
succeed), so it never returns the documented
`(y_train, y_test, X_train, X_test)` four-tuple. -/
theorem tts_with_X_raises_typeError :
    temporal_train_test_split none (some (PyNum.int 2)) none true
      = Except.error PyErr.typeError := rfl

/-- Claim C1 (evaluation at the failing input): for `N = 10`,
`train_size = 3`, `test_size = 2`, anchor `"start"`, the split is
`([0, 1, 2], [6, 7, 8, 9])`: the start-anchor branch re-cuts the tail using
`train_size` and keeps the remainder, so `test_size` is ignored and the test
set is neither adjacent to the train set nor of size 2 (the claim expects
`[3, 4]`). -/
theorem start_anchor_ignores_test_size :
    TemporalTrainTestSplitter_splitCore (some (PyNum.int 3))
        (some (PyNum.int 2)) anchorStart (List.range 10)
      = ([0, 1, 2], [6, 7, 8, 9]) := by decide

/-- Claim C6 (evaluation at the failing input): for `N = 10`,
`train_size = 2`, `test_size = 0`, anchor `"start"`, the split is
`([0, 1], [4, 5, 6, 7, 8, 9])`: a zero test count does not yield an empty
test sequence, because the start-anchor branch ignores `test_size`. -/
theorem zero_test_size_start_anchor_nonempty_test :
    TemporalTrainTestSplitter_splitCore (some (PyNum.int 2))
        (some (PyNum.int 0)) anchorStart (List.range 10)
      = ([0, 1], [4, 5, 6, 7, 8, 9]) := by decide

/-- Claim C9: `get_n_splits` returns exactly 1 for every (optional) input,
and `_split` yields exactly one `(train, test)` pair per invocation. -/
theorem single_split_and_n_splits_one (y : Option (List ℕ))
    (tr ts : Option PyNum) (anchor : String) (ys : List ℕ) :
    TemporalTrainTestSplitter_get_n_splits y = 1
    ∧ (TemporalTrainTestSplitter_split tr ts anchor ys).length = 1 :=
  ⟨rfl, rfl⟩

/-- Claim C10: after construction, the `split_hierarchical` tag is `true`
exactly when `test_size` is an int and `train_size` is `None` or an int; any
other combination lowers it to `false`. -/
theorem split_hierarchical_tag_iff (tr ts : Option PyNum) :
    TemporalTrainTestSplitter_tag_split_hierarchical tr ts = true
      ↔ (isPyInt ts = true ∧ (tr = none ∨ isPyInt tr = true)) := by
  rcases tr with _ | (a | a) <;> rcases ts with _ | (b | b) <;>
    simp [TemporalTrainTestSplitter_tag_split_hierarchical, isPyInt]

/-- Claim C3: `temporal_train_test_split` raises `ValueError` exactly when a
forecasting horizon is supplied together with a non-`None` `test_size` or
`train_size` (the check happens before any split work), and when `fh` is
supplied alone the whole call is the delegation to the external
`_split_by_fh` routine. -/
theorem tts_valueError_iff_fh_with_sizes (fh : Option ℕ)
    (ts tr : Option PyNum) (X : Bool) (f : ℕ) :
    (temporal_train_test_split fh ts tr X = Except.error PyErr.valueError
      ↔ fh.isSome = true ∧ (ts.isSome = true ∨ tr.isSome = true))
    ∧ temporal_train_test_split (some f) none none X
        = Except.ok TTSReturn.delegated := by
  have h : TemporalTrainTestSplitter_initCallOk ttsInitKwargs = false := by
    decide
  constructor
  · cases fh <;> cases ts <;> cases tr <;> cases X <;>
      simp [temporal_train_test_split, h]
  · simp [temporal_train_test_split]

/-- Claim C7: size normalization first defaults `test_size` to `0.25` when
both sizes are `None`, then forces the anchor to `"end"` when `train_size`
is `None` and to `"start"` when the (possibly defaulted) `test_size` is
`None`, overriding any user-supplied anchor in those cases; `train_size`
itself is unchanged. -/
theorem normalize_defaults_and_anchor_forcing (tr ts : Option PyNum)
    (anchor : String) :
    normalizeSizes tr ts anchor =
      (tr,
        (if tr = none ∧ ts = none then some (PyNum.float (1/4)) else ts),
        (if tr = none then anchorEnd
          else if ts = none then anchorStart else anchor)) := by
  cases tr <;> cases ts <;> simp [normalizeSizes]

/-- Claim C4: for a series of length 10 with `test_size=0.2`,
`train_size=0.3` and anchor `"end"`, the split yields
`train_indices = [5, 6, 7]` and `test_indices = [8, 9]`. -/
theorem split_end_anchor_scenario2 :
    TemporalTrainTestSplitter_splitCore (some (PyNum.float (3/10)))
        (some (PyNum.float (1/5))) anchorEnd (List.range 10)
      = ([5, 6, 7], [8, 9]) := by
  have h1 : pyCeil ((5 : ℚ)⁻¹ * 10) = 2 := by
    rw [pyCeil, Nat.ceil_eq_iff (by norm_num)]
    constructor <;> norm_num
  have h2 : pyCeil ((3 / 10 : ℚ) * 8) = 3 := by
    rw [pyCeil, Nat.ceil_eq_iff (by norm_num)]
    constructor <;> norm_num
  simp [TemporalTrainTestSplitter_splitCore, normalizeSizes,
    ExpandingGreedySplitter_split, sizeToCount, h1, h2]
  decide

/-- Claim C5 (counterexample): for `N = 10`, `test_size = 0.5`,
`train_size = 0.5`, anchor `"end"`, the train set has 3 samples, not the
`floor(train_size * N) = 5` the claim predicts: the train fraction is
converted against the 5 samples remaining after the test cut, rounded up
(`ceil(0.5 * 5) = 3`), not against the full length `N`. -/
theorem train_float_not_floor_of_full_length :
    (TemporalTrainTestSplitter_splitCore (some (PyNum.float (1/2)))
        (some (PyNum.float (1/2))) anchorEnd (List.range 10)).1.length
      ≠ Nat.floor ((1/2 : ℚ) * 10) := by
  have h1 : pyCeil ((2 : ℚ)⁻¹ * 10) = 5 := by
    rw [pyCeil, Nat.ceil_eq_iff (by norm_num)]
    constructor <;> norm_num
  have h2 : pyCeil ((2 : ℚ)⁻¹ * 5) = 3 := by
    rw [pyCeil, Nat.ceil_eq_iff (by norm_num)]
    constructor <;> norm_num
  have hf : Nat.floor ((2 : ℚ)⁻¹ * 10) = 5 := by norm_num
  simp [TemporalTrainTestSplitter_splitCore, normalizeSizes,
    ExpandingGreedySplitter_split, sizeToCount, h1, h2, hf]

/-- Claim C5 (amended): under anchor `"end"`, a float `test_size` is
converted to the count `ceil(test_size * N)` of the full original length
(clamped to `N`); a float `train_size` is converted to
`ceil(train_size * m)` where `m = N - test_count` is the length remaining
after the test cut (clamped to `m`), not a floor of the full length; and
integer sizes pass through unchanged as absolute counts, clamped to the
available length. -/
theorem end_anchor_size_conversion (N : ℕ) (q r : ℚ) (a b : ℕ) :
    ((TemporalTrainTestSplitter_splitCore (some (PyNum.float r))
        (some (PyNum.float q)) anchorEnd (List.range N)).2.length
      = min (pyCeil (q * N)) N)
    ∧ ((TemporalTrainTestSplitter_splitCore (some (PyNum.float r))
        (some (PyNum.float q)) anchorEnd (List.range N)).1.length
      = min (pyCeil (r * ((N - pyCeil (q * N) : ℕ) : ℚ)))
          (N - pyCeil (q * N)))
    ∧ ((TemporalTrainTestSplitter_splitCore (some (PyNum.int b))
        (some (PyNum.int a)) anchorEnd (List.range N)).2.length = min a N)
    ∧ ((TemporalTrainTestSplitter_splitCore (some (PyNum.int b))
        (some (PyNum.int a)) anchorEnd (List.range N)).1.length
      = min b (N - a)) := by
  refine ⟨?_, ?_, ?_, ?_⟩ <;>
    simp [TemporalTrainTestSplitter_splitCore, normalizeSizes,
      ExpandingGreedySplitter_split, sizeToCount, List.length_take,
      List.length_drop, List.length_range] <;>
    omega
